import Mathlib

/-!
Shallow embedding of the Sale Transaction & Inventory Allocation Engine of
the FYP_Backend repository (src/src/controllers/saleController.js), covering
`createSale`, `cancelSale` and `returnProducts` together with the parts of
the data model they touch (Batch, Sale, SaleItem, Customer, Store, Product).

JavaScript numbers are modelled as rationals (ℚ); MongoDB object ids as
naturals; the mongoose session transaction as all-or-nothing application of
a pure function on a database snapshot (an aborted transaction returns the
untouched snapshot).  Truthiness of a numeric field (`x || y`) is modelled
by a zero test, and `Number.isInteger q` by `q.den = 1`.
-/

namespace FYP

/-- A store document: the fields the sale engine reads (owner, staff list). -/
structure StoreDoc where
  id : Nat
  owner : Nat
  staff : List Nat := []
deriving DecidableEq, Repr

/-- A product document: the sale engine reads only identity, owning store and
the default selling price. -/
structure Product where
  id : Nat
  store : Nat
  sellingPrice : ℚ := 0
deriving DecidableEq, Repr

/-- A batch document (src/src/models, batch schema): one dated lot of stock of
one product with its own selling price and a mutable stock counter. -/
structure Batch where
  id : Nat
  product : Nat
  store : Nat
  expiryDate : Int
  sellingPrice : ℚ
  initialStock : ℚ
  currentStock : ℚ
deriving DecidableEq, Repr

/-- A customer document: the sale engine looks customers up by store and the
walk-in triple (name, null email, null phone). -/
structure Customer where
  id : Nat
  store : Nat
  name : String
  email : Option String := none
  phoneNumber : Option String := none
deriving DecidableEq, Repr

/-- One line of a persisted sale (sale schema `items` entry). -/
structure SaleItem where
  product : Nat
  batch : Nat
  quantity : ℚ
  unitPrice : ℚ
  subtotal : ℚ
  discount : ℚ := 0
  returnedQuantity : ℚ := 0
deriving DecidableEq, Repr

/-- One embedded return record of a sale (sale schema `returns` entry):
the returned (product, batch, quantity) triples and the refund amount. -/
structure ReturnRecord where
  items : List (Nat × Nat × ℚ)
  refundAmount : ℚ
deriving DecidableEq, Repr

/-- A persisted sale document (sale schema). -/
structure Sale where
  id : Nat
  store : Nat
  customer : Nat
  items : List SaleItem
  subtotal : ℚ
  discount : ℚ := 0
  discountAmount : ℚ := 0
  tax : ℚ := 0
  total : ℚ
  returnTotal : ℚ := 0
  finalTotal : ℚ
  returns : List ReturnRecord := []
  createdAt : ℚ
deriving DecidableEq, Repr

/-- The database snapshot a transaction operates on. `nextId` models the id
generator for newly inserted documents. -/
structure DB where
  stores : List StoreDoc := []
  products : List Product := []
  batches : List Batch := []
  customers : List Customer := []
  sales : List Sale := []
  nextId : Nat := 0
deriving DecidableEq, Repr

/-- The authenticated request user (`req.user`). -/
structure UserCtx where
  id : Nat
  role : String
deriving DecidableEq, Repr

/-- One requested cart line of a createSale request body. -/
structure ItemReq where
  product : Nat
  quantity : ℚ
  unitPrice : Option ℚ := none
  batch : Option Nat := none
  discount : Option ℚ := none
deriving DecidableEq, Repr

/-- A createSale request body. -/
structure SaleReq where
  store : Option Nat := none
  customer : Option Nat := none
  items : List ItemReq
  subtotal : ℚ
  discount : Option ℚ := none
  tax : Option ℚ := none
  total : ℚ
  paymentMethod : String := "cash"
  forceCreate : Bool := false
deriving DecidableEq, Repr

/-- The distinct error responses of createSale. -/
inductive SaleError where
  | noItems
  | paymentRequired
  | storeNotFound
  | customerNotFound
  | customerWrongStore
  | invalidQuantity (product : Nat)
  | productNotFound (product : Nat)
  | noStockAvailable (product : Nat)
  | insufficientTotalStock (product : Nat) (available requested : ℚ)
  | batchNotFound (batch : Nat)
  | insufficientBatchStock (product : Nat) (available requested : ℚ)
  | allocationFailure (product : Nat)
deriving DecidableEq, Repr

/-- The body of the `recalculation: true` response returned on a price
discrepancy without forceCreate: recalculated values plus the originals. -/
structure RecalcInfo where
  subtotal : ℚ
  discountPercentage : ℚ
  discountAmount : ℚ
  tax : ℚ
  total : ℚ
  items : List SaleItem
  originalSubtotal : ℚ
  originalTotal : ℚ
deriving DecidableEq, Repr

/-- Outcome of createSale: committed sale with the new snapshot, a
recalculation response (nothing committed), or an error (nothing committed). -/
inductive SaleOutcome where
  | ok (db : DB) (sale : Sale)
  | recalc (info : RecalcInfo)
  | err (e : SaleError)
deriving DecidableEq, Repr

/-- `parseFloat(x.toFixed(2))`: round to two decimal places (half up). -/
def round2 (q : ℚ) : ℚ := (Rat.floor (q * 100 + 1/2) : ℚ) / 100

/-- JavaScript `v || fallback` on numbers: `v` when truthy (nonzero). -/
def orFalsy (v fallback : ℚ) : ℚ := if v = 0 then fallback else v

/-- Apply a stock delta to the batch with the given id (a mongoose
`batch.currentStock += delta; batch.save()`); no-op when the id is absent. -/
def updateBatchStock (batches : List Batch) (id : Nat) (delta : ℚ) : List Batch :=
  batches.map fun b =>
    if b.id = id then { b with currentStock := b.currentStock + delta } else b

/-- The FEFO allocation loop of createSale (`for (const batch of
availableBatches)`): walk the expiry-sorted batches, taking
`min(batch.currentStock, remaining)` from each, pricing each slice at the
batch's own selling price (falling back to the default when falsy), with the
item discount split proportionally to the slice's share of the quantity. -/
def allocateFEFO (productId : Nat) (itemQty : ℚ) (defaultPrice : ℚ)
    (itemDiscount : ℚ) : List Batch → ℚ → List SaleItem
  | [], _ => []
  | b :: rest, remaining =>
    if remaining ≤ 0 then []
    else if b.currentStock ≤ 0 then
      allocateFEFO productId itemQty defaultPrice itemDiscount rest remaining
    else
      let quantityFromBatch := min b.currentStock remaining
      let batchPrice := orFalsy b.sellingPrice defaultPrice
      let batchDiscount :=
        if itemDiscount = 0 then 0 else itemDiscount * quantityFromBatch / itemQty
      { product := productId, batch := b.id, quantity := quantityFromBatch,
        unitPrice := batchPrice, subtotal := quantityFromBatch * batchPrice,
        discount := batchDiscount } ::
        allocateFEFO productId itemQty defaultPrice itemDiscount rest
          (remaining - quantityFromBatch)

/-- Stable ascending sort by expiry date (`.sort(\x7b expiryDate: 1 \x7d)`). -/
def sortByExpiry (l : List Batch) : List Batch :=
  List.insertionSort (fun a b => a.expiryDate ≤ b.expiryDate) l

/-- The `Batch.find` of createSale: all batches of the product and store
holding stock (`currentStock: \x7b $gt: 0 \x7d`), sorted ascending by expiry. -/
def eligibleBatches (batches : List Batch) (productId storeId : Nat) : List Batch :=
  sortByExpiry (batches.filter fun b =>
    b.product == productId && b.store == storeId && decide ((0:ℚ) < b.currentStock))

/-- Summed `currentStock` of a batch list (the aggregate availability check). -/
def totalStock (batches : List Batch) : ℚ :=
  batches.foldl (fun s b => s + b.currentStock) 0

/-- Accumulator of the per-item processing loop of createSale. -/
structure ItemsAcc where
  processed : List SaleItem := []
  batches : List Batch
  calculatedSubtotal : ℚ := 0
  totalItemDiscount : ℚ := 0
deriving DecidableEq, Repr

/-- One iteration of createSale's `for (const item of items)` loop:
validate the quantity, resolve the product, gather eligible batches
(positive stock, expiry-sorted), check aggregate stock, then either allocate
wholly from an explicitly named batch or run the FEFO loop. -/
def processItem (products : List Product) (storeId : Nat) (acc : ItemsAcc)
    (item : ItemReq) : Except SaleError ItemsAcc :=
  if item.quantity ≤ 0 ∨ item.quantity.den ≠ 1 then
    .error (.invalidQuantity item.product)
  else
    match products.find? (fun p => p.id == item.product && p.store == storeId) with
    | none => .error (.productNotFound item.product)
    | some product =>
      let defaultEffectivePrice :=
        match item.unitPrice with
        | none => product.sellingPrice
        | some p => if p ≤ 0 then product.sellingPrice else p
      let availableBatches := eligibleBatches acc.batches item.product storeId
      if availableBatches.isEmpty then .error (.noStockAvailable item.product)
      else
        let totalAvailableStock := totalStock availableBatches
        if totalAvailableStock < item.quantity then
          .error (.insufficientTotalStock item.product totalAvailableStock item.quantity)
        else
          match item.batch with
          | some batchId =>
            match acc.batches.find? (fun b =>
                b.id == batchId && b.product == item.product && b.store == storeId) with
            | none => .error (.batchNotFound batchId)
            | some specifiedBatch =>
              if specifiedBatch.currentStock < item.quantity then
                .error (.insufficientBatchStock item.product
                  specifiedBatch.currentStock item.quantity)
              else
                let effectivePrice := orFalsy specifiedBatch.sellingPrice defaultEffectivePrice
                let itemSubtotal := item.quantity * effectivePrice
                let itemDiscount := item.discount.getD 0
                .ok { processed := acc.processed ++
                        [{ product := item.product, batch := batchId,
                           quantity := item.quantity, unitPrice := effectivePrice,
                           subtotal := itemSubtotal, discount := itemDiscount }],
                      batches := updateBatchStock acc.batches batchId (-item.quantity),
                      calculatedSubtotal := acc.calculatedSubtotal + itemSubtotal,
                      totalItemDiscount := acc.totalItemDiscount + itemDiscount }
          | none =>
            let allocations := allocateFEFO item.product item.quantity
              defaultEffectivePrice (item.discount.getD 0) availableBatches item.quantity
            let allocatedQty := allocations.foldl (fun s a => s + a.quantity) 0
            if 0 < item.quantity - allocatedQty then
              .error (.allocationFailure item.product)
            else
              .ok { processed := acc.processed ++ allocations,
                    batches := allocations.foldl
                      (fun bs a => updateBatchStock bs a.batch (-a.quantity)) acc.batches,
                    calculatedSubtotal := acc.calculatedSubtotal +
                      allocations.foldl (fun s a => s + a.subtotal) 0,
                    totalItemDiscount := acc.totalItemDiscount +
                      allocations.foldl (fun s a => s + a.discount) 0 }

/-- The whole per-item loop, threading batch state and running totals. -/
def processItems (products : List Product) (storeId : Nat) (items : List ItemReq)
    (batches : List Batch) : Except SaleError ItemsAcc :=
  items.foldlM (processItem products storeId) { batches := batches }

/-- Result of the discount-handling stage of createSale. -/
structure CalcResult where
  items : List SaleItem
  cartDiscountAmount : ℚ
  calculatedSubtotal : ℚ
  calculatedDiscountAmount : ℚ
  calculatedTotal : ℚ
deriving DecidableEq, Repr

/-- The discount-handling stage of createSale: a positive cart-level
percentage discount is turned into an amount and redistributed across the
processed items in proportion to each item's share of the subtotal; the
calculated total is `subtotal − discountAmount + tax`. -/
def applyCartDiscount (acc : ItemsAcc) (discountPercentage tax : ℚ) : CalcResult :=
  if 0 < discountPercentage then
    let cartDiscountAmount := acc.calculatedSubtotal * discountPercentage / 100
    let calculatedDiscountAmount := acc.totalItemDiscount + cartDiscountAmount
    { items := acc.processed.map fun it =>
        { it with discount :=
            it.discount + cartDiscountAmount * (it.subtotal / acc.calculatedSubtotal) },
      cartDiscountAmount,
      calculatedSubtotal := acc.calculatedSubtotal,
      calculatedDiscountAmount,
      calculatedTotal := acc.calculatedSubtotal - calculatedDiscountAmount + tax }
  else
    { items := acc.processed,
      cartDiscountAmount := 0,
      calculatedSubtotal := acc.calculatedSubtotal,
      calculatedDiscountAmount := acc.totalItemDiscount,
      calculatedTotal := acc.calculatedSubtotal - acc.totalItemDiscount + tax }

/-- Customer resolution of createSale: an explicit customer must exist and
belong to the store; otherwise the store's walk-in customer is found or
created (deduplicated by name + null email + null phone). -/
def resolveCustomer (db : DB) (storeId : Nat) (customer : Option Nat) :
    Except SaleError (Nat × List Customer × Nat) :=
  match customer with
  | some c =>
    match db.customers.find? (fun cu => cu.id == c) with
    | none => .error .customerNotFound
    | some cu =>
      if cu.store ≠ storeId then .error .customerWrongStore
      else .ok (c, db.customers, db.nextId)
  | none =>
    match db.customers.find? (fun cu =>
        cu.store == storeId && cu.name == "Walk-in Customer" &&
        cu.email.isNone && cu.phoneNumber.isNone) with
    | some cu => .ok (cu.id, db.customers, db.nextId)
    | none =>
      .ok (db.nextId,
        db.customers ++ [{ id := db.nextId, store := storeId,
                           name := "Walk-in Customer" }],
        db.nextId + 1)

/-- `SaleController.createSale`: validations, store and customer resolution,
the per-item allocation loop, cart-discount handling, price reconciliation
against the submitted subtotal/total with an epsilon of 0.01, and the final
commit (or a recalculation response, or an error — both committing nothing). -/
def createSale (db : DB) (user : UserCtx) (req : SaleReq) (now : ℚ) : SaleOutcome :=
  if req.items.isEmpty then .err .noItems
  else if req.paymentMethod = "" then .err .paymentRequired
  else
    let storeDoc? :=
      if user.role = "owner" then db.stores.find? (fun s => s.owner == user.id)
      else req.store.bind fun sid => db.stores.find? (fun s => s.id == sid)
    match storeDoc? with
    | none => .err .storeNotFound
    | some storeDoc =>
      match resolveCustomer db storeDoc.id req.customer with
      | .error e => .err e
      | .ok (customerId, customers, nextId) =>
        match processItems db.products storeDoc.id req.items db.batches with
        | .error e => .err e
        | .ok acc =>
          let discountPercentage := req.discount.getD 0
          let cr := applyCartDiscount acc discountPercentage (req.tax.getD 0)
          let epsilon : ℚ := 1 / 100
          let subtotalDiscrepancy := epsilon < |cr.calculatedSubtotal - req.subtotal|
          let totalDiscrepancy := epsilon < |cr.calculatedTotal - req.total|
          if (subtotalDiscrepancy ∨ totalDiscrepancy) ∧ req.forceCreate = false then
            .recalc { subtotal := round2 cr.calculatedSubtotal,
                      discountPercentage,
                      discountAmount := round2 cr.calculatedDiscountAmount,
                      tax := req.tax.getD 0,
                      total := round2 cr.calculatedTotal,
                      items := cr.items.map fun it =>
                        { it with unitPrice := round2 it.unitPrice,
                                  subtotal := round2 it.subtotal,
                                  discount := round2 it.discount },
                      originalSubtotal := req.subtotal,
                      originalTotal := req.total }
          else
            let finalSubtotal := if req.forceCreate then cr.calculatedSubtotal else req.subtotal
            let finalTotal := if req.forceCreate then cr.calculatedTotal else req.total
            let finalDiscountAmount :=
              if req.forceCreate then cr.calculatedDiscountAmount
              else req.subtotal * (discountPercentage / 100) + acc.totalItemDiscount
            let sale : Sale :=
              { id := nextId, store := storeDoc.id, customer := customerId,
                items := cr.items,
                subtotal := round2 finalSubtotal,
                discount := discountPercentage,
                discountAmount := round2 finalDiscountAmount,
                tax := req.tax.getD 0,
                total := round2 finalTotal,
                returnTotal := 0,
                finalTotal := round2 finalTotal,
                returns := [],
                createdAt := now }
            .ok { db with batches := acc.batches, customers := customers,
                          sales := db.sales ++ [sale], nextId := nextId + 1 } sale

/-- The database after a createSale request: the committed snapshot on
success, the untouched snapshot otherwise (aborted transaction). -/
def runCreate (db : DB) (user : UserCtx) (req : SaleReq) (now : ℚ) : DB :=
  match createSale db user req now with
  | .ok db' _ => db'
  | _ => db

/-- Whether a createSale outcome is an error response. -/
def SaleOutcome.isErr : SaleOutcome → Bool
  | .err _ => true
  | _ => false

/-- Whether a createSale error is the insufficient-batch-stock error. -/
def SaleError.isBatchStockError : SaleError → Bool
  | .insufficientBatchStock _ _ _ => true
  | _ => false

/-- Whether a createSale outcome errs with a given class of error. -/
def SaleOutcome.errIs (p : SaleError → Bool) : SaleOutcome → Bool
  | .err e => p e
  | _ => false

/-- The distinct error responses of cancelSale. -/
inductive CancelError where
  | saleNotFound
  | storeNotFound
  | notAuthorized
  | windowExpired
deriving DecidableEq, Repr

/-- `SaleController.cancelSale`: only the store owner or an admin, only
within 7 days of the sale's creation; restores every item's full quantity to
its batch and deletes the sale. Times are in days. -/
def cancelSale (db : DB) (user : UserCtx) (saleId : Nat) (now : ℚ) :
    Except CancelError DB :=
  match db.sales.find? (fun s => s.id == saleId) with
  | none => .error .saleNotFound
  | some sale =>
    match db.stores.find? (fun st => st.id == sale.store) with
    | none => .error .storeNotFound
    | some store =>
      let isStoreOwner := store.owner == user.id
      let isAdmin := user.role == "admin"
      if !isStoreOwner && !isAdmin then .error .notAuthorized
      else
        let daysDifference := now - sale.createdAt
        if 7 < daysDifference then .error .windowExpired
        else
          .ok { db with
            batches := sale.items.foldl
              (fun bs it => updateBatchStock bs it.batch it.quantity) db.batches,
            sales := db.sales.filter (fun s => s.id != saleId) }

/-- The database after a cancelSale request (unchanged on error). -/
def runCancel (db : DB) (user : UserCtx) (saleId : Nat) (now : ℚ) : DB :=
  match cancelSale db user saleId now with
  | .ok db' => db'
  | .error _ => db

/-- One line of a returnProducts request body. -/
structure ReturnItemReq where
  productId : Nat
  batchId : Nat
  quantity : ℚ
deriving DecidableEq, Repr

/-- The distinct error responses of returnProducts. -/
inductive ReturnError where
  | missingFields
  | invalidQuantity
  | saleNotFound
  | storeNotFound
  | notAuthorized
  | windowExpired
  | itemNotInSale (productId batchId : Nat)
  | exceedsPurchased (productId : Nat)
  | alreadyReturned (productId : Nat)
  | batchNotFound (batchId : Nat)
  | productNotFound (productId : Nat)
deriving DecidableEq, Repr

/-- One entry of the return summary returned to the caller. -/
structure ReturnLineSummary where
  productId : Nat
  batchId : Nat
  returnedQuantity : ℚ
  unitPrice : ℚ
  discountPerUnit : ℚ
  effectiveUnitPrice : ℚ
  refundAmount : ℚ
deriving DecidableEq, Repr

/-- The upfront per-line validation loop of returnProducts: each line needs a
truthy quantity (`!item.quantity`) that is a positive number — with no
integrality requirement. -/
def checkReturnItems : List ReturnItemReq → Option ReturnError
  | [] => none
  | r :: rest =>
    if r.quantity = 0 then some .missingFields
    else if r.quantity ≤ 0 then some .invalidQuantity
    else checkReturnItems rest

/-- Mutate the first sale item matching (product, batch) — the document
`sale.items.find(...)` returned a live reference to. -/
def updateFirstItem (productId batchId : Nat) (f : SaleItem → SaleItem) :
    List SaleItem → List SaleItem
  | [] => []
  | it :: rest =>
    if it.product == productId && it.batch == batchId then f it :: rest
    else it :: updateFirstItem productId batchId f rest

/-- Accumulator of the per-line processing loop of returnProducts. -/
structure ReturnAcc where
  items : List SaleItem
  batches : List Batch
  summary : List ReturnLineSummary := []
  totalRefundAmount : ℚ := 0
deriving DecidableEq, Repr

/-- One iteration of returnProducts' `for (const returnItem of returnedItems)`
loop: find the original line, bound the quantity by what was purchased minus
what was already returned, restore the batch stock, and compute the
discount-adjusted refund. -/
def processReturnItem (products : List Product) (acc : ReturnAcc)
    (r : ReturnItemReq) : Except ReturnError ReturnAcc :=
  match acc.items.find? (fun it => it.product == r.productId && it.batch == r.batchId) with
  | none => .error (.itemNotInSale r.productId r.batchId)
  | some originalItem =>
    if originalItem.quantity < r.quantity then .error (.exceedsPurchased r.productId)
    else if originalItem.returnedQuantity ≠ 0 ∧
        originalItem.quantity < originalItem.returnedQuantity + r.quantity then
      .error (.alreadyReturned r.productId)
    else
      match acc.batches.find? (fun b => b.id == r.batchId) with
      | none => .error (.batchNotFound r.batchId)
      | some _ =>
        match products.find? (fun p => p.id == r.productId) with
        | none => .error (.productNotFound r.productId)
        | some _ =>
          let discountPerUnit :=
            if originalItem.discount = 0 then 0
            else originalItem.discount / originalItem.quantity
          let effectiveUnitPrice := originalItem.unitPrice - discountPerUnit
          let itemRefundAmount := effectiveUnitPrice * r.quantity
          .ok { items := updateFirstItem r.productId r.batchId
                  (fun it => { it with returnedQuantity := it.returnedQuantity + r.quantity })
                  acc.items,
                batches := updateBatchStock acc.batches r.batchId r.quantity,
                summary := acc.summary ++
                  [{ productId := r.productId, batchId := r.batchId,
                     returnedQuantity := r.quantity, unitPrice := originalItem.unitPrice,
                     discountPerUnit, effectiveUnitPrice,
                     refundAmount := itemRefundAmount }],
                totalRefundAmount := acc.totalRefundAmount + itemRefundAmount }

/-- The success payload of returnProducts. -/
structure ReturnOutcome where
  db : DB
  summary : List ReturnLineSummary
  totalRefundAmount : ℚ
  updatedSaleTotal : ℚ
deriving DecidableEq, Repr

/-- `SaleController.returnProducts`: per-line validation, sale lookup
(optionally scoped to a store), owner/staff/admin authorization, the 30-day
return window, the per-line processing loop, then the sale update
(`returnTotal += refund`, `finalTotal = total − returnTotal`, appended
return record) committed together with the batch restorations. -/
def returnProducts (db : DB) (user : UserCtx) (saleId : Nat) (storeId : Option Nat)
    (returnedItems : List ReturnItemReq) (now : ℚ) : Except ReturnError ReturnOutcome :=
  if returnedItems.isEmpty then .error .missingFields
  else
    match checkReturnItems returnedItems with
    | some e => .error e
    | none =>
      match db.sales.find? (fun s => s.id == saleId &&
          (match storeId with | some sid => s.store == sid | none => true)) with
      | none => .error .saleNotFound
      | some sale =>
        match db.stores.find? (fun st => st.id == sale.store) with
        | none => .error .storeNotFound
        | some storeDoc =>
          let isStoreOwner := storeDoc.owner == user.id
          let isStoreStaff := storeDoc.staff.any (fun sid => sid == user.id)
          let isAdmin := user.role == "admin"
          if !isStoreOwner && !isStoreStaff && !isAdmin then .error .notAuthorized
          else if 30 < now - sale.createdAt then .error .windowExpired
          else
            match returnedItems.foldlM (processReturnItem db.products)
                { items := sale.items, batches := db.batches } with
            | .error e => .error e
            | .ok acc =>
              let returnTotal := sale.returnTotal + acc.totalRefundAmount
              let sale' := { sale with
                items := acc.items,
                returns := sale.returns ++
                  [{ items := returnedItems.map fun r => (r.productId, r.batchId, r.quantity),
                     refundAmount := acc.totalRefundAmount }],
                returnTotal := returnTotal,
                finalTotal := sale.total - returnTotal }
              let db' := { db with
                batches := acc.batches,
                sales := db.sales.map fun s => if s.id = saleId then sale' else s }
              .ok { db := db',
                    summary := acc.summary,
                    totalRefundAmount := acc.totalRefundAmount,
                    updatedSaleTotal := sale'.finalTotal }

/-- The database after a returnProducts request (unchanged on error). -/
def runReturn (db : DB) (user : UserCtx) (saleId : Nat) (storeId : Option Nat)
    (returnedItems : List ReturnItemReq) (now : ℚ) : DB :=
  match returnProducts db user saleId storeId returnedItems now with
  | .ok o => o.db
  | .error _ => db

end FYP

namespace FYP

/-! ### Concrete scenarios (the spec's §8 data and small variations) -/

/-- Store 1 owned by user 100. -/
def storeA : StoreDoc := { id := 1, owner := 100 }

/-- Product P of the spec's concrete scenario. -/
def productP : Product := { id := 10, store := 1, sellingPrice := 11 }

/-- A second product of store 1. -/
def productQ : Product := { id := 11, store := 1, sellingPrice := 8 }

/-- Batch B1: expiry 2025-01-01 (day ordinal 11), stock 5, price 10. -/
def batchB1 : Batch := { id := 21, product := 10, store := 1, expiryDate := 11,
                         sellingPrice := 10, initialStock := 5, currentStock := 5 }

/-- Batch B2: expiry 2025-06-01 (day ordinal 61), stock 10, price 12. -/
def batchB2 : Batch := { id := 22, product := 10, store := 1, expiryDate := 61,
                         sellingPrice := 12, initialStock := 10, currentStock := 10 }

/-- The only batch of product Q, stock 2. -/
def batchB3 : Batch := { id := 23, product := 11, store := 1, expiryDate := 31,
                         sellingPrice := 8, initialStock := 2, currentStock := 2 }

/-- The store's walk-in customer. -/
def walkIn : Customer := { id := 5, store := 1, name := "Walk-in Customer" }

/-- The store owner's request context. -/
def ownerUser : UserCtx := { id := 100, role := "owner" }

/-- Snapshot for the replay of claim C1: one batch with stock 5 of 5. -/
def dbC1 : DB := { stores := [storeA], products := [productP],
                   batches := [batchB1], customers := [walkIn], nextId := 6 }

/-- C1 replay: sell 2 units. -/
def reqC1 : SaleReq := { items := [{ product := 10, quantity := 2 }],
                         subtotal := 20, total := 20 }

/-- Snapshot for the spec's concrete FEFO scenario (claims C2, C8). -/
def dbC2 : DB := { stores := [storeA], products := [productP],
                   batches := [batchB1, batchB2], customers := [walkIn], nextId := 6 }

/-- Request 8 units of product P with no explicit batch and no discount. -/
def reqC2 : SaleReq := { items := [{ product := 10, quantity := 8 }],
                         subtotal := 86, total := 86 }

/-- The sale the FEFO scenario persists: 5 from B1 at 10, 3 from B2 at 12. -/
def saleC2 : Sale :=
  { id := 6, store := 1, customer := 5,
    items := [{ product := 10, batch := 21, quantity := 5, unitPrice := 10, subtotal := 50 },
              { product := 10, batch := 22, quantity := 3, unitPrice := 12, subtotal := 36 }],
    subtotal := 86, total := 86, finalTotal := 86, createdAt := 0 }

/-- Snapshot for claim C3: product P has stock, product Q has only 2 units. -/
def dbC3 : DB := { stores := [storeA], products := [productP, productQ],
                   batches := [batchB1, batchB3], customers := [walkIn], nextId := 6 }

/-- A two-item cart whose second item exceeds product Q's total stock. -/
def reqC3 : SaleReq := { items := [{ product := 10, quantity := 2 },
                                   { product := 11, quantity := 5 }],
                         subtotal := 60, total := 60 }

/-- B1 shrunk to 3 units for claim C4. -/
def batchB1small : Batch := { batchB1 with initialStock := 3, currentStock := 3 }

/-- Snapshot for claim C4: the explicit batch (3 units) is the only batch. -/
def dbC4 : DB := { stores := [storeA], products := [productP],
                   batches := [batchB1small], customers := [walkIn], nextId := 6 }

/-- Request 5 units explicitly from batch 21 (which has only 3). -/
def reqC4 : SaleReq := { items := [{ product := 10, quantity := 5, batch := some 21 }],
                         subtotal := 50, total := 50 }

/-- Variant snapshot: a second batch makes the aggregate stock sufficient. -/
def dbC4b : DB := { dbC4 with batches := [batchB1small, batchB2] }

/-- Request 2 units explicitly from batch 21 (which has 3). -/
def reqC4c : SaleReq := { items := [{ product := 10, quantity := 2, batch := some 21 }],
                          subtotal := 20, total := 20 }

/-- Snapshot for claim C5: no walk-in customer exists yet. -/
def dbC5 : DB := { stores := [storeA], products := [productP],
                   batches := [batchB1, batchB2], customers := [], nextId := 6 }

/-- Request 8 units but submit stale totals (50 instead of 86). -/
def reqC5 : SaleReq := { items := [{ product := 10, quantity := 8 }],
                         subtotal := 50, total := 50 }

/-- Request 8 units with a 10% cart discount, junk client totals, forceCreate. -/
def reqC6 : SaleReq := { items := [{ product := 10, quantity := 8 }],
                         subtotal := 1, total := 2, discount := some 10,
                         forceCreate := true }

/-- A persisted sale of 3 units of which 1 was already returned (claim C7). -/
def saleC7 : Sale :=
  { id := 6, store := 1, customer := 5,
    items := [{ product := 10, batch := 21, quantity := 3, unitPrice := 10,
                subtotal := 30, returnedQuantity := 1 }],
    subtotal := 30, total := 30, returnTotal := 10, finalTotal := 20, createdAt := 0 }

/-- Snapshot for claim C7. -/
def dbC7 : DB := { stores := [storeA], products := [productP],
                   batches := [{ batchB1 with currentStock := 3 }],
                   customers := [walkIn], sales := [saleC7], nextId := 7 }

/-- A persisted sale of 2 units, nothing returned (claim C9). -/
def saleC9 : Sale :=
  { id := 6, store := 1, customer := 5,
    items := [{ product := 10, batch := 21, quantity := 2, unitPrice := 10, subtotal := 20 }],
    subtotal := 20, total := 20, finalTotal := 20, createdAt := 0 }

/-- Snapshot for claim C9: the sale's 2 units are off the batch (stock 3). -/
def dbC9 : DB := { stores := [storeA], products := [productP],
                   batches := [{ batchB1 with currentStock := 3 }],
                   customers := [walkIn], sales := [saleC9], nextId := 7 }

/-- A persisted sale of 3 units at unit price 10, nothing returned (claim C10). -/
def saleC10 : Sale :=
  { id := 6, store := 1, customer := 5,
    items := [{ product := 10, batch := 21, quantity := 3, unitPrice := 10, subtotal := 30 }],
    subtotal := 30, total := 30, finalTotal := 30, createdAt := 0 }

/-- Snapshot for claim C10: batch at stock 2 of 5, the sale persisted. -/
def dbC10 : DB := { stores := [storeA], products := [productP],
                    batches := [{ batchB1 with currentStock := 2 }],
                    customers := [walkIn], sales := [saleC10], nextId := 7 }

end FYP

namespace FYP

/-- The persisted sale of a successful createSale outcome, if any. -/
def SaleOutcome.okSale? : SaleOutcome → Option Sale
  | .ok _ s => some s
  | _ => none

/-- The committed snapshot of a successful createSale outcome, if any. -/
def SaleOutcome.okDB? : SaleOutcome → Option DB
  | .ok db _ => some db
  | _ => none

/-- The sale persisted when 2 units are taken wholly from explicit batch 21
of the dbC4b snapshot. -/
def saleC4c : Sale :=
  { id := 6, store := 1, customer := 5,
    items := [{ product := 10, batch := 21, quantity := 2, unitPrice := 10, subtotal := 20 }],
    subtotal := 20, total := 20, finalTotal := 20, createdAt := 0 }

/-- A batch literal at full stock, for symbolic statements. -/
def mkBatch (id productId storeId : Nat) (expiry : Int) (price stock : ℚ) : Batch :=
  { id := id, product := productId, store := storeId, expiryDate := expiry,
    sellingPrice := price, initialStock := stock, currentStock := stock }

deriving instance DecidableEq for Except

/-- The per-item accumulator produced by processing the 8-unit FEFO request
against the full B1/B2 snapshot. -/
def accW5 : ItemsAcc :=
  { processed := saleC2.items,
    batches := [{ batchB1 with currentStock := 0 }, { batchB2 with currentStock := 7 }],
    calculatedSubtotal := 86, totalItemDiscount := 0 }

/-- The discount-stage result for that request with no cart discount. -/
def crW5 : CalcResult :=
  { items := saleC2.items, cartDiscountAmount := 0, calculatedSubtotal := 86,
    calculatedDiscountAmount := 0, calculatedTotal := 86 }

/-- The discount-stage result for that request with a 10% cart discount:
8.6 redistributed as 5 and 3.6 across the two allocations. -/
def crW6 : CalcResult :=
  { items := [{ product := 10, batch := 21, quantity := 5, unitPrice := 10,
                subtotal := 50, discount := 5 },
              { product := 10, batch := 22, quantity := 3, unitPrice := 12,
                subtotal := 36, discount := 18/5 }],
    cartDiscountAmount := 43/5, calculatedSubtotal := 86,
    calculatedDiscountAmount := 43/5, calculatedTotal := 387/5 }

/-- The sale record persisted by a forced createSale: every monetary field
comes from the server-side calculation. -/
def forcedSaleRecord (storeId customerId nextId : Nat) (pct tax : ℚ)
    (cr : CalcResult) (now : ℚ) : Sale :=
  { id := nextId, store := storeId, customer := customerId, items := cr.items,
    subtotal := round2 cr.calculatedSubtotal, discount := pct,
    discountAmount := round2 cr.calculatedDiscountAmount, tax := tax,
    total := round2 cr.calculatedTotal, returnTotal := 0,
    finalTotal := round2 cr.calculatedTotal, returns := [], createdAt := now }

/-! ### Claim theorems -/

/-- C1: the claimed invariant is violated by the code. After selling 2 units
from a batch with initialStock 5 (stock 3), returning 1 unit (stock 4) and
then cancelling the same sale inside the 7-day window, cancelSale restores
the full purchased quantity again, leaving currentStock = 6 > initialStock
= 5: the bound `currentStock ≤ initialStock` does not survive a
cancellation that follows a partial return of the same sale. -/
theorem c1_cancel_after_partial_return_exceeds_initialStock :
    (let d1 := runCreate dbC1 ownerUser reqC1 0
     let d2 := runReturn d1 ownerUser 6 none
       [{ productId := 10, batchId := 21, quantity := 1 }] 1
     let d3 := runCancel d2 ownerUser 6 2
     d1.batches.map Batch.currentStock = [3] ∧
     d2.batches.map Batch.currentStock = [4] ∧
     d3.batches.map Batch.currentStock = [6] ∧
     d3.batches.map Batch.initialStock = [5] ∧
     ¬ ∀ b ∈ d3.batches, b.currentStock ≤ b.initialStock) := by
  with_unfolding_all decide

/-- C3: when the summed stock of a product's eligible batches is below the
requested quantity of a cart item, createSale fails with the
insufficient-total-stock error naming that product, and the aborted
transaction leaves every batch — including batches already decremented for
earlier items of the same cart — at its pre-call stock: an erroring
createSale never changes the snapshot. -/
theorem c3_insufficient_stock_all_or_nothing (db : DB) (user : UserCtx)
    (req : SaleReq) (now : ℚ)
    (herr : (createSale db user req now).isErr = true) :
    runCreate db user req now = db ∧
    createSale dbC3 ownerUser reqC3 0 = .err (.insufficientTotalStock 11 2 5) ∧
    runCreate dbC3 ownerUser reqC3 0 = dbC3 := by
  have h2 : createSale dbC3 ownerUser reqC3 0 =
      .err (.insufficientTotalStock 11 2 5) := by with_unfolding_all decide
  refine ⟨?_, h2, by simp [runCreate, h2]⟩
  cases hc : createSale db user req now with
  | ok db' sale => rw [hc] at herr; simp [SaleOutcome.isErr] at herr
  | recalc i => simp [runCreate, hc]
  | err e => simp [runCreate, hc]

/-- C3 witness: the concrete two-item cart (first item allocatable, second
short by 3) errs, and the theorem applied there returns the unchanged
snapshot. -/
theorem c3_insufficient_stock_all_or_nothing_witness :
    (createSale dbC3 ownerUser reqC3 0).isErr = true ∧
    runCreate dbC3 ownerUser reqC3 0 = dbC3 :=
  ⟨by with_unfolding_all decide,
   (c3_insufficient_stock_all_or_nothing dbC3 ownerUser reqC3 0
      (by with_unfolding_all decide)).1⟩

/-- C4 counterexample: with a single batch holding 3 units, requesting 5
units explicitly from that batch makes createSale fail with the
insufficient-TOTAL-stock error of the earlier aggregate check, not the
insufficient-batch-stock error the claim promises for every explicit-batch
shortfall. -/
theorem c4_counterexample_aggregate_check_first :
    (dbC4.batches.map Batch.currentStock = [3]) ∧
    (reqC4.items.map ItemReq.batch = [some 21]) ∧
    (reqC4.items.map ItemReq.quantity = [5]) ∧
    (createSale dbC4 ownerUser reqC4 0).isErr = true ∧
    (createSale dbC4 ownerUser reqC4 0).errIs SaleError.isBatchStockError = false ∧
    createSale dbC4 ownerUser reqC4 0 = .err (.insufficientTotalStock 10 3 5) := by
  with_unfolding_all decide

end FYP

namespace FYP

/-- C2: the spec's concrete FEFO scenario and the general allocation walk.
For batches B1 (expiry 2025-01-01, stock 5, price 10) and B2 (expiry
2025-06-01, stock 10, price 12), a sale of 8 units with no explicit batch
and no discount persists exactly the allocations [(B1, 5, 10, 50),
(B2, 3, 12, 36)] with calculated subtotal 86, leaving B1 at 0 and B2 at 7.
In general, batches are sorted ascending by expiry date and the allocator
walks them in that order taking min(currentStock, remaining) from each: a
request of s1 + k with 0 < k < s2 empties batch 1, takes exactly k from
batch 2 and never touches batch 3. -/
theorem c2_fefo_allocation (bid1 bid2 bid3 pid storeId : Nat) (e1 e2 e3 : Int)
    (s1 s2 s3 k p1 p2 p3 dflt : ℚ)
    (h12 : e1 < e2) (h23 : e2 < e3)
    (hs1 : 0 < s1) (hs2 : 0 < s2) (hk : 0 < k) (hks : k < s2) :
    (createSale dbC2 ownerUser reqC2 0).okSale? = some saleC2 ∧
    (createSale dbC2 ownerUser reqC2 0).okDB?.map
      (fun d => d.batches.map Batch.currentStock) = some [0, 7] ∧
    (processItems dbC2.products 1 reqC2.items dbC2.batches).toOption.map
      ItemsAcc.calculatedSubtotal = some 86 ∧
    sortByExpiry [mkBatch bid2 pid storeId e2 p2 s2, mkBatch bid3 pid storeId e3 p3 s3,
                  mkBatch bid1 pid storeId e1 p1 s1] =
      [mkBatch bid1 pid storeId e1 p1 s1, mkBatch bid2 pid storeId e2 p2 s2,
       mkBatch bid3 pid storeId e3 p3 s3] ∧
    allocateFEFO pid (s1 + k) dflt 0
      [mkBatch bid1 pid storeId e1 p1 s1, mkBatch bid2 pid storeId e2 p2 s2,
       mkBatch bid3 pid storeId e3 p3 s3] (s1 + k) =
      [{ product := pid, batch := bid1, quantity := s1, unitPrice := orFalsy p1 dflt,
         subtotal := s1 * orFalsy p1 dflt },
       { product := pid, batch := bid2, quantity := k, unitPrice := orFalsy p2 dflt,
         subtotal := k * orFalsy p2 dflt }] := by
  refine ⟨by with_unfolding_all decide, by with_unfolding_all decide,
    by with_unfolding_all decide, ?_, ?_⟩
  · have d21 : ¬ (e2 ≤ e1) := not_le.mpr h12
    have d31 : ¬ (e3 ≤ e1) := not_le.mpr (lt_trans h12 h23)
    have d23 : e2 ≤ e3 := le_of_lt h23
    simp [sortByExpiry, List.insertionSort, List.orderedInsert, mkBatch, d21, d31, d23]
  · have c1 : ¬ (s1 + k ≤ 0) := by push_neg; positivity
    have c2 : ¬ (s1 ≤ 0) := not_le.mpr hs1
    have c3 : ¬ (k ≤ 0) := not_le.mpr hk
    have c4 : ¬ (s2 ≤ 0) := not_le.mpr hs2
    have m1 : min s1 (s1 + k) = s1 := min_eq_left (by linarith)
    have m2 : min s2 k = k := min_eq_right (le_of_lt hks)
    simp [allocateFEFO, mkBatch, c1, c2, c3, c4, m1, m2, add_sub_cancel_left, sub_self]

/-- C2 witness: the general walk instantiated at expiries 1 < 2 < 3, stocks
5, 10, 4 and a request of 5 + 3 units. -/
theorem c2_fefo_allocation_witness :
    allocateFEFO 9 (5 + 3) 7 0
      [mkBatch 1 9 1 1 10 5, mkBatch 2 9 1 2 12 10, mkBatch 3 9 1 3 9 4] (5 + 3) =
      [{ product := 9, batch := 1, quantity := 5, unitPrice := orFalsy 10 7,
         subtotal := 5 * orFalsy 10 7 },
       { product := 9, batch := 2, quantity := 3, unitPrice := orFalsy 12 7,
         subtotal := 3 * orFalsy 12 7 }] :=
  (c2_fefo_allocation 1 2 3 9 1 1 2 3 5 10 4 3 10 12 9 7 (by norm_num) (by norm_num)
    (by norm_num) (by norm_num) (by norm_num) (by norm_num)).2.2.2.2

/-- C4 amended: the explicit-batch path never falls back to multi-batch
allocation, but the insufficient-batch-stock error is only reached when the
product's summed eligible stock covers the request; when even the aggregate
is short, createSale raises the insufficient-total-stock error first (see
the counterexample). With enough stock in the explicit batch the whole
quantity is allocated from it alone at that batch's price. -/
theorem c4_explicit_batch_amended (products : List Product) (storeId : Nat)
    (acc : ItemsAcc) (item : ItemReq) (batchId : Nat) (product : Product)
    (sb : Batch) (dflt : ℚ)
    (hq : 0 < item.quantity) (hden : item.quantity.den = 1)
    (hb : item.batch = some batchId)
    (hp : products.find? (fun p => p.id == item.product && p.store == storeId) =
      some product)
    (hav : (eligibleBatches acc.batches item.product storeId).isEmpty = false)
    (htot : item.quantity ≤ totalStock (eligibleBatches acc.batches item.product storeId))
    (hsb : acc.batches.find? (fun b =>
      b.id == batchId && b.product == item.product && b.store == storeId) = some sb)
    (hd : dflt = (match item.unitPrice with
      | none => product.sellingPrice
      | some p => if p ≤ 0 then product.sellingPrice else p)) :
    (sb.currentStock < item.quantity →
      processItem products storeId acc item =
        .error (.insufficientBatchStock item.product sb.currentStock item.quantity)) ∧
    (item.quantity ≤ sb.currentStock →
      processItem products storeId acc item = .ok
        { processed := acc.processed ++
            [{ product := item.product, batch := batchId, quantity := item.quantity,
               unitPrice := orFalsy sb.sellingPrice dflt,
               subtotal := item.quantity * orFalsy sb.sellingPrice dflt,
               discount := item.discount.getD 0 }],
          batches := updateBatchStock acc.batches batchId (-item.quantity),
          calculatedSubtotal :=
            acc.calculatedSubtotal + item.quantity * orFalsy sb.sellingPrice dflt,
          totalItemDiscount := acc.totalItemDiscount + item.discount.getD 0 }) ∧
    createSale dbC4b ownerUser reqC4 0 = .err (.insufficientBatchStock 10 3 5) ∧
    (createSale dbC4b ownerUser reqC4c 0).okSale? = some saleC4c ∧
    (createSale dbC4b ownerUser reqC4c 0).okDB?.map
      (fun d => d.batches.map Batch.currentStock) = some [1, 10] := by
  have hcond : ¬ (item.quantity ≤ 0 ∨ item.quantity.den ≠ 1) := by
    push_neg
    exact ⟨hq, hden⟩
  refine ⟨?_, ?_, by with_unfolding_all decide, by with_unfolding_all decide,
    by with_unfolding_all decide⟩
  · intro hlt
    simp only [processItem, hp, hb, hav, hsb, if_neg hcond, Bool.false_eq_true,
      if_false, if_neg (not_lt.mpr htot), if_pos hlt]
  · intro hge
    simp only [processItem, hp, hb, hav, hsb, if_neg hcond, Bool.false_eq_true,
      if_false, if_neg (not_lt.mpr htot), if_neg (not_lt.mpr hge), hd]

set_option maxRecDepth 2000 in
/-- C4 witness: the amended theorem applied to the dbC4b snapshot's batches
with the 5-unit explicit-batch item, giving the insufficient-batch-stock
error there (batch 21 holds 3 < 5 while the aggregate holds 13). -/
theorem c4_explicit_batch_amended_witness :
    processItem dbC4b.products 1 { batches := dbC4b.batches }
      { product := 10, quantity := 5, batch := some 21 } =
      .error (.insufficientBatchStock 10 batchB1small.currentStock 5) :=
  (c4_explicit_batch_amended dbC4b.products 1 { batches := dbC4b.batches }
    { product := 10, quantity := 5, batch := some 21 } 21 productP batchB1small 11
    (by norm_num) (by with_unfolding_all decide) rfl (by with_unfolding_all decide)
    (by with_unfolding_all decide) (by with_unfolding_all decide)
    (by with_unfolding_all decide) (by with_unfolding_all decide)).1
    (by with_unfolding_all decide)

end FYP

namespace FYP

/-- C5: whenever the server-computed subtotal or total differs from the
submitted one by more than the 0.01 epsilon and forceCreate is false,
createSale answers with the recalculation response carrying the
recalculated values (rounded to cents) together with the originally
submitted subtotal and total, and commits nothing: no sale, no batch
decrement, and no surviving walk-in customer row (the snapshot is returned
unchanged). -/
theorem c5_recalculation_no_commit (db : DB) (user : UserCtx) (req : SaleReq) (now : ℚ)
    (storeDoc : StoreDoc) (customerId : Nat) (customers : List Customer)
    (nextId : Nat) (acc : ItemsAcc) (cr : CalcResult)
    (hne : req.items.isEmpty = false)
    (hpay : ¬ req.paymentMethod = "")
    (hstore : (if user.role = "owner" then db.stores.find? (fun s => s.owner == user.id)
      else req.store.bind fun sid => db.stores.find? (fun s => s.id == sid)) =
      some storeDoc)
    (hcust : resolveCustomer db storeDoc.id req.customer = .ok (customerId, customers, nextId))
    (hproc : processItems db.products storeDoc.id req.items db.batches = .ok acc)
    (hcr : applyCartDiscount acc (req.discount.getD 0) (req.tax.getD 0) = cr)
    (hdisc : 1/100 < |cr.calculatedSubtotal - req.subtotal| ∨
      1/100 < |cr.calculatedTotal - req.total|)
    (hforce : req.forceCreate = false) :
    createSale db user req now = .recalc
      { subtotal := round2 cr.calculatedSubtotal,
        discountPercentage := req.discount.getD 0,
        discountAmount := round2 cr.calculatedDiscountAmount,
        tax := req.tax.getD 0,
        total := round2 cr.calculatedTotal,
        items := cr.items.map fun it =>
          { it with unitPrice := round2 it.unitPrice, subtotal := round2 it.subtotal,
                    discount := round2 it.discount },
        originalSubtotal := req.subtotal, originalTotal := req.total } ∧
    runCreate db user req now = db := by
  have h1 : createSale db user req now = .recalc
      { subtotal := round2 cr.calculatedSubtotal,
        discountPercentage := req.discount.getD 0,
        discountAmount := round2 cr.calculatedDiscountAmount,
        tax := req.tax.getD 0,
        total := round2 cr.calculatedTotal,
        items := cr.items.map fun it =>
          { it with unitPrice := round2 it.unitPrice, subtotal := round2 it.subtotal,
                    discount := round2 it.discount },
        originalSubtotal := req.subtotal, originalTotal := req.total } := by
    simp only [createSale, hne, hpay, hstore, hcust, hproc, hcr, hforce,
      Bool.false_eq_true, if_false, ite_false]
    rw [if_pos ⟨hdisc, trivial⟩]
  exact ⟨h1, by simp [runCreate, h1]⟩

/-- C5 witness: submitting subtotal 50 and total 50 for a cart the server
prices at 86, with no walk-in customer in the snapshot, yields the
recalculation response and leaves the snapshot — including the customers
collection — unchanged. -/
theorem c5_recalculation_no_commit_witness :
    createSale dbC5 ownerUser reqC5 0 = .recalc
      { subtotal := round2 crW5.calculatedSubtotal,
        discountPercentage := reqC5.discount.getD 0,
        discountAmount := round2 crW5.calculatedDiscountAmount,
        tax := reqC5.tax.getD 0,
        total := round2 crW5.calculatedTotal,
        items := crW5.items.map fun it =>
          { it with unitPrice := round2 it.unitPrice, subtotal := round2 it.subtotal,
                    discount := round2 it.discount },
        originalSubtotal := reqC5.subtotal, originalTotal := reqC5.total } ∧
    runCreate dbC5 ownerUser reqC5 0 = dbC5 :=
  c5_recalculation_no_commit dbC5 ownerUser reqC5 0 storeA 6
    (dbC5.customers ++ [{ id := 6, store := 1, name := "Walk-in Customer" }]) 7
    accW5 crW5 (by with_unfolding_all decide) (by with_unfolding_all decide)
    (by with_unfolding_all decide) (by with_unfolding_all decide)
    (by with_unfolding_all decide) (by with_unfolding_all decide)
    (by left; norm_num [crW5, reqC5]) (by with_unfolding_all decide)

/-- C6: with forceCreate, the persisted sale carries the server-computed
values — subtotal, discountAmount and total = calculatedSubtotal −
calculatedDiscountAmount + tax, each rounded to cents — regardless of the
client-submitted subtotal and total, and a positive cart-level percentage
discount is distributed across the processed items proportionally to each
item's share of the calculated subtotal. -/
theorem c6_forcecreate_server_values (db : DB) (user : UserCtx) (req : SaleReq) (now : ℚ)
    (storeDoc : StoreDoc) (customerId : Nat) (customers : List Customer)
    (nextId : Nat) (acc : ItemsAcc) (cr : CalcResult)
    (hne : req.items.isEmpty = false)
    (hpay : ¬ req.paymentMethod = "")
    (hstore : (if user.role = "owner" then db.stores.find? (fun s => s.owner == user.id)
      else req.store.bind fun sid => db.stores.find? (fun s => s.id == sid)) =
      some storeDoc)
    (hcust : resolveCustomer db storeDoc.id req.customer = .ok (customerId, customers, nextId))
    (hproc : processItems db.products storeDoc.id req.items db.batches = .ok acc)
    (hcr : applyCartDiscount acc (req.discount.getD 0) (req.tax.getD 0) = cr)
    (hforce : req.forceCreate = true) :
    createSale db user req now = .ok
      { db with batches := acc.batches, customers := customers,
                sales := db.sales ++
                  [forcedSaleRecord storeDoc.id customerId nextId
                    (req.discount.getD 0) (req.tax.getD 0) cr now],
                nextId := nextId + 1 }
      (forcedSaleRecord storeDoc.id customerId nextId
        (req.discount.getD 0) (req.tax.getD 0) cr now) ∧
    (0 < req.discount.getD 0 →
      cr.items = acc.processed.map fun it =>
        { it with discount := it.discount +
            (acc.calculatedSubtotal * (req.discount.getD 0) / 100) *
              (it.subtotal / acc.calculatedSubtotal) }) := by
  constructor
  · simp only [createSale, hne, hpay, hstore, hcust, hproc, hcr, hforce,
      Bool.false_eq_true, Bool.true_eq_false, if_false, ite_false, and_false,
      if_true, ite_true, forcedSaleRecord]
  · intro hpos
    rw [← hcr]
    simp [applyCartDiscount, if_pos hpos]

/-- C6 witness: forcing a sale with junk submitted totals (1 and 2) and a
10% cart discount persists subtotal 86, discountAmount 8.6 and total 77.4,
with item discounts 5 and 3.6 distributed by subtotal share. -/
theorem c6_forcecreate_server_values_witness :
    createSale dbC5 ownerUser reqC6 0 = .ok
      { dbC5 with batches := accW5.batches,
                  customers := dbC5.customers ++
                    [{ id := 6, store := 1, name := "Walk-in Customer" }],
                  sales := dbC5.sales ++
                    [forcedSaleRecord 1 6 7 (reqC6.discount.getD 0) (reqC6.tax.getD 0) crW6 0],
                  nextId := 8 }
      (forcedSaleRecord 1 6 7 (reqC6.discount.getD 0) (reqC6.tax.getD 0) crW6 0) ∧
    (0 < reqC6.discount.getD 0 →
      crW6.items = accW5.processed.map fun it =>
        { it with discount := it.discount +
            (accW5.calculatedSubtotal * (reqC6.discount.getD 0) / 100) *
              (it.subtotal / accW5.calculatedSubtotal) }) :=
  c6_forcecreate_server_values dbC5 ownerUser reqC6 0 storeA 6
    (dbC5.customers ++ [{ id := 6, store := 1, name := "Walk-in Customer" }]) 7
    accW5 crW6 (by with_unfolding_all decide) (by with_unfolding_all decide)
    (by with_unfolding_all decide) (by with_unfolding_all decide)
    (by with_unfolding_all decide) (by with_unfolding_all decide)
    (by with_unfolding_all decide)

end FYP

namespace FYP

/-! ### Helper lemmas on the return-processing loop -/

/-- Binding an error in Except short-circuits. -/
theorem except_error_bind {ε α β : Type} (e : ε) (f : α → Except ε β) :
    (Except.error e >>= f) = Except.error e := rfl

/-- Binding a success in Except applies the continuation. -/
theorem except_ok_bind {ε α β : Type} (a : α) (f : α → Except ε β) :
    (Except.ok a >>= f) = f a := rfl

/-- Every member of the list after updating the first (product, batch) match
is either an original member or the updated image of the member `find?`
returns. -/
theorem mem_updateFirstItem {p b : Nat} {f : SaleItem → SaleItem} {w : SaleItem}
    (l : List SaleItem)
    (hf : l.find? (fun it => it.product == p && it.batch == b) = some w) :
    ∀ x ∈ updateFirstItem p b f l, x ∈ l ∨ x = f w := by
  induction l with
  | nil => simp at hf
  | cons it rest ih =>
    intro x hx
    by_cases h : (fun it => it.product == p && it.batch == b) it = true
    · rw [List.find?_cons_of_pos rest h] at hf
      injection hf with hw
      subst hw
      rw [updateFirstItem, if_pos h] at hx
      rcases List.mem_cons.mp hx with hx | hx
      · exact Or.inr hx
      · exact Or.inl (List.mem_cons_of_mem _ hx)
    · rw [List.find?_cons_of_neg rest h] at hf
      rw [updateFirstItem, if_neg h] at hx
      rcases List.mem_cons.mp hx with hx | hx
      · subst hx; exact Or.inl (List.mem_cons_self _ _)
      · rcases ih hf x hx with h1 | h1
        · exact Or.inl (List.mem_cons_of_mem _ h1)
        · exact Or.inr h1

/-- One successful return-line step keeps `returnedQuantity ≤ quantity` on
every sale item: the two validity checks bound the increment. -/
theorem processReturnItem_bound (products : List Product) (acc acc' : ReturnAcc)
    (r : ReturnItemReq)
    (h : processReturnItem products acc r = .ok acc')
    (hinv : ∀ it ∈ acc.items, it.returnedQuantity ≤ it.quantity) :
    ∀ it ∈ acc'.items, it.returnedQuantity ≤ it.quantity := by
  cases hfind : acc.items.find?
      (fun it => it.product == r.productId && it.batch == r.batchId) with
  | none => simp only [processReturnItem, hfind] at h; simp at h
  | some origIt =>
    simp only [processReturnItem, hfind] at h
    by_cases h1 : origIt.quantity < r.quantity
    · rw [if_pos h1] at h; simp at h
    · rw [if_neg h1] at h
      by_cases h2 : origIt.returnedQuantity ≠ 0 ∧
          origIt.quantity < origIt.returnedQuantity + r.quantity
      · rw [if_pos h2] at h; simp at h
      · rw [if_neg h2] at h
        cases hb : acc.batches.find? (fun bb => bb.id == r.batchId) with
        | none => rw [hb] at h; simp at h
        | some bb =>
          rw [hb] at h
          cases hp : products.find? (fun pp => pp.id == r.productId) with
          | none => rw [hp] at h; simp at h
          | some pp =>
            rw [hp] at h
            simp only [Except.ok.injEq] at h
            subst h
            intro it hit
            rcases mem_updateFirstItem acc.items hfind it hit with hmem | heq
            · exact hinv it hmem
            · subst heq
              have hw := hinv origIt (List.mem_of_find?_eq_some hfind)
              by_cases h0 : origIt.returnedQuantity = 0
              · simp only [h0]
                simpa using not_lt.mp h1
              · have h3 := not_lt.mp ((not_and.mp h2) h0)
                simpa using h3

/-- The whole return-line loop keeps `returnedQuantity ≤ quantity`. -/
theorem foldlM_processReturnItem_bound (products : List Product)
    (rs : List ReturnItemReq) (acc acc' : ReturnAcc)
    (h : rs.foldlM (processReturnItem products) acc = .ok acc')
    (hinv : ∀ it ∈ acc.items, it.returnedQuantity ≤ it.quantity) :
    ∀ it ∈ acc'.items, it.returnedQuantity ≤ it.quantity := by
  induction rs generalizing acc with
  | nil =>
    rw [List.foldlM_nil] at h
    injection h with h
    subst h
    exact hinv
  | cons r rest ih =>
    rw [List.foldlM_cons] at h
    cases hp : processReturnItem products acc r with
    | error e => rw [hp, except_error_bind] at h; simp at h
    | ok a =>
      rw [hp, except_ok_bind] at h
      exact ih a h (processReturnItem_bound products acc a r hp hinv)

/-- A returnProducts request — accepted or rejected — keeps
`returnedQuantity ≤ quantity` on every item of every sale. -/
theorem returnProducts_preserves_bound (db : DB) (user : UserCtx) (saleId : Nat)
    (storeId : Option Nat) (rs : List ReturnItemReq) (now : ℚ)
    (hinv : ∀ s ∈ db.sales, ∀ it ∈ s.items, it.returnedQuantity ≤ it.quantity) :
    ∀ s ∈ (runReturn db user saleId storeId rs now).sales, ∀ it ∈ s.items,
      it.returnedQuantity ≤ it.quantity := by
  unfold runReturn
  cases hr : returnProducts db user saleId storeId rs now with
  | error e => exact hinv
  | ok o =>
    by_cases hne : rs.isEmpty
    · simp only [returnProducts, hne] at hr; simp at hr
    · cases hchk : checkReturnItems rs with
      | some e => simp only [returnProducts, hne, hchk] at hr; simp at hr
      | none =>
        cases hsale : db.sales.find? (fun s => s.id == saleId &&
            (match storeId with | some sid => s.store == sid | none => true)) with
        | none => simp only [returnProducts, hne, hchk, hsale] at hr; simp at hr
        | some sale =>
          cases hstore : db.stores.find? (fun st => st.id == sale.store) with
          | none => simp only [returnProducts, hne, hchk, hsale, hstore] at hr; simp at hr
          | some storeDoc =>
            simp only [returnProducts, hne, hchk, hsale, hstore, Bool.false_eq_true,
              if_false, ite_false, if_true, ite_true] at hr
            split_ifs at hr with hauth hwin
            cases hfold : rs.foldlM (processReturnItem db.products)
                { items := sale.items, batches := db.batches } with
            | error e => rw [hfold] at hr; simp at hr
            | ok acc =>
              rw [hfold] at hr
              simp only [Except.ok.injEq] at hr
              subst hr
              intro s hs it hit
              simp only [List.mem_map] at hs
              rcases hs with ⟨s₀, hs₀, rfl⟩
              by_cases hid : s₀.id = saleId
              · rw [if_pos hid] at hit
                have hinit : ∀ it ∈ sale.items, it.returnedQuantity ≤ it.quantity :=
                  hinv sale (List.mem_of_find?_eq_some hsale)
                exact foldlM_processReturnItem_bound db.products rs _ acc hfold hinit it hit
              · rw [if_neg hid] at hit
                exact hinv s₀ hs₀ it hit

/-- C7: a return line whose quantity plus the previously returned quantity
exceeds the purchased quantity makes the whole return fail (all-or-nothing:
a rejected return leaves the snapshot untouched, so every SaleItem keeps
`returnedQuantity ≤ quantity` — an invariant every request preserves), and
concretely: returning 3 units of an item of quantity 3 with 1 already
returned is rejected, leaving the sale and batch stock unchanged. -/
theorem c7_return_bound_all_or_nothing (db : DB) (user : UserCtx) (saleId : Nat)
    (storeId : Option Nat) (rs : List ReturnItemReq) (now : ℚ)
    (hinv : ∀ s ∈ db.sales, ∀ it ∈ s.items, it.returnedQuantity ≤ it.quantity) :
    ((returnProducts db user saleId storeId rs now).isOk = false →
      runReturn db user saleId storeId rs now = db) ∧
    (∀ s ∈ (runReturn db user saleId storeId rs now).sales, ∀ it ∈ s.items,
      it.returnedQuantity ≤ it.quantity) ∧
    (∀ (products : List Product) (acc : ReturnAcc) (r : ReturnItemReq) (origIt : SaleItem),
      acc.items.find? (fun it => it.product == r.productId && it.batch == r.batchId) =
        some origIt →
      origIt.quantity < origIt.returnedQuantity + r.quantity →
      (processReturnItem products acc r).isOk = false) ∧
    returnProducts dbC7 ownerUser 6 none
      [{ productId := 10, batchId := 21, quantity := 3 }] 1 =
      .error (.alreadyReturned 10) ∧
    runReturn dbC7 ownerUser 6 none
      [{ productId := 10, batchId := 21, quantity := 3 }] 1 = dbC7 := by
  have hconc : returnProducts dbC7 ownerUser 6 none
      [{ productId := 10, batchId := 21, quantity := 3 }] 1 =
      .error (.alreadyReturned 10) := by with_unfolding_all decide
  refine ⟨?_, returnProducts_preserves_bound db user saleId storeId rs now hinv, ?_,
    hconc, by simp [runReturn, hconc]⟩
  · intro hnok
    unfold runReturn
    cases hro : returnProducts db user saleId storeId rs now with
    | ok o => rw [hro] at hnok; simp [Except.isOk, Except.toBool] at hnok
    | error e => rfl
  · intro products acc r origIt hfind hover
    cases hres : processReturnItem products acc r with
    | error e => rfl
    | ok a =>
      exfalso
      simp only [processReturnItem, hfind] at hres
      by_cases h1 : origIt.quantity < r.quantity
      · rw [if_pos h1] at hres; simp at hres
      · rw [if_neg h1] at hres
        have hne0 : origIt.returnedQuantity ≠ 0 := fun h0 =>
          h1 (by rw [h0] at hover; simpa using hover)
        rw [if_pos ⟨hne0, hover⟩] at hres
        simp at hres

/-- C7 witness: the snapshot with a partially returned sale satisfies the
bound, and the over-return request leaves it unchanged. -/
theorem c7_return_bound_all_or_nothing_witness :
    (∀ s ∈ dbC7.sales, ∀ it ∈ s.items, it.returnedQuantity ≤ it.quantity) ∧
    runReturn dbC7 ownerUser 6 none
      [{ productId := 10, batchId := 21, quantity := 3 }] 1 = dbC7 :=
  ⟨by with_unfolding_all decide,
   (c7_return_bound_all_or_nothing dbC7 ownerUser 6 none
     [{ productId := 10, batchId := 21, quantity := 3 }] 1
     (by with_unfolding_all decide)).2.2.2.2⟩

end FYP

namespace FYP

/-- An accepted single-line return: the exact success payload, including
refund (unitPrice − discount/quantity) × quantity, the batch restock and the
sale update. Shared by the C8 and C10 theorems. -/
theorem returnProducts_single_line_ok (db : DB) (user : UserCtx) (saleId : Nat) (now : ℚ)
    (sale : Sale) (storeDoc : StoreDoc) (origIt : SaleItem) (b : Batch)
    (prod : Product) (r : ReturnItemReq) (refund : ℚ)
    (hq : 0 < r.quantity)
    (hsale : db.sales.find? (fun s => s.id == saleId &&
      (match (none : Option Nat) with | some sid => s.store == sid | none => true)) =
      some sale)
    (hstore : db.stores.find? (fun st => st.id == sale.store) = some storeDoc)
    (hauth : ((!(storeDoc.owner == user.id) &&
      !(storeDoc.staff.any fun sid => sid == user.id)) &&
      !(user.role == "admin")) = false)
    (hwin : ¬ 30 < now - sale.createdAt)
    (hfind : sale.items.find?
      (fun it => it.product == r.productId && it.batch == r.batchId) = some origIt)
    (hret0 : 0 ≤ origIt.returnedQuantity)
    (hprev : origIt.returnedQuantity + r.quantity ≤ origIt.quantity)
    (hbatch : db.batches.find? (fun bb => bb.id == r.batchId) = some b)
    (hprod : db.products.find? (fun pp => pp.id == r.productId) = some prod)
    (hrefund : refund = (origIt.unitPrice - origIt.discount / origIt.quantity) * r.quantity) :
    (returnProducts db user saleId none [r] now = .ok
      { db := { db with
          batches := updateBatchStock db.batches r.batchId r.quantity,
          sales := db.sales.map fun s => if s.id = saleId then
            { sale with
              items := updateFirstItem r.productId r.batchId
                (fun it => { it with returnedQuantity := it.returnedQuantity + r.quantity })
                sale.items,
              returns := sale.returns ++
                [{ items := [(r.productId, r.batchId, r.quantity)],
                   refundAmount := refund }],
              returnTotal := sale.returnTotal + refund,
              finalTotal := sale.total - (sale.returnTotal + refund) }
            else s },
        summary := [{ productId := r.productId, batchId := r.batchId,
                      returnedQuantity := r.quantity, unitPrice := origIt.unitPrice,
                      discountPerUnit := origIt.discount / origIt.quantity,
                      effectiveUnitPrice := origIt.unitPrice - origIt.discount / origIt.quantity,
                      refundAmount := refund }],
        totalRefundAmount := refund,
        updatedSaleTotal := sale.total - (sale.returnTotal + refund) }) := by
  have hqne : ¬ ((r.quantity : ℚ) = 0) := ne_of_gt hq
  have hqnle : ¬ ((r.quantity : ℚ) ≤ 0) := not_le.mpr hq
  have hqlt : ¬ (origIt.quantity < r.quantity) := by
    push_neg
    calc r.quantity ≤ origIt.returnedQuantity + r.quantity := by linarith
    _ ≤ origIt.quantity := hprev
  have hchk2 : ¬ (origIt.returnedQuantity ≠ 0 ∧
      origIt.quantity < origIt.returnedQuantity + r.quantity) := by
    rintro ⟨-, hlt⟩
    exact absurd hprev (not_le.mpr hlt)
  have hdisc : (if origIt.discount = 0 then 0 else origIt.discount / origIt.quantity) =
      origIt.discount / origIt.quantity := by
    split_ifs with h0
    · rw [h0, zero_div]
    · rfl
  simp only [returnProducts, List.isEmpty_cons, checkReturnItems, hqne, hqnle,
    if_false, ite_false, Bool.false_eq_true, hsale, hstore, hauth, hwin,
    List.foldlM_cons, List.foldlM_nil, processReturnItem, hfind, hqlt, hchk2,
    hbatch, hprod, hdisc, except_ok_bind, hrefund, pure, Except.pure]
  simp [zero_add]

/-- C8: an accepted single-line return refunds
(unitPrice − discount/quantity) × returnedQuantity, adds exactly the
returned quantity back onto the batch named by the line (the batch the sale
allocated from, since the line must match the original item's batch),
increments that SaleItem's returnedQuantity by the same amount, and bumps
returnTotal by the refund with finalTotal = total − returnTotal.
Concretely, returning 2 undiscounted units bought at 12 from batch B2 of
the C2 scenario yields refund 24, B2 stock 7 → 9, returnedQuantity 2 and
finalTotal 62. -/
theorem c8_return_refund_and_restock (db : DB) (user : UserCtx) (saleId : Nat) (now : ℚ)
    (sale : Sale) (storeDoc : StoreDoc) (origIt : SaleItem) (b : Batch)
    (prod : Product) (r : ReturnItemReq) (refund : ℚ)
    (hq : 0 < r.quantity)
    (hsale : db.sales.find? (fun s => s.id == saleId &&
      (match (none : Option Nat) with | some sid => s.store == sid | none => true)) =
      some sale)
    (hstore : db.stores.find? (fun st => st.id == sale.store) = some storeDoc)
    (hauth : ((!(storeDoc.owner == user.id) &&
      !(storeDoc.staff.any fun sid => sid == user.id)) &&
      !(user.role == "admin")) = false)
    (hwin : ¬ 30 < now - sale.createdAt)
    (hfind : sale.items.find?
      (fun it => it.product == r.productId && it.batch == r.batchId) = some origIt)
    (hret0 : 0 ≤ origIt.returnedQuantity)
    (hprev : origIt.returnedQuantity + r.quantity ≤ origIt.quantity)
    (hbatch : db.batches.find? (fun bb => bb.id == r.batchId) = some b)
    (hprod : db.products.find? (fun pp => pp.id == r.productId) = some prod)
    (hrefund : refund = (origIt.unitPrice - origIt.discount / origIt.quantity) * r.quantity) :
    (returnProducts db user saleId none [r] now = .ok
      { db := { db with
          batches := updateBatchStock db.batches r.batchId r.quantity,
          sales := db.sales.map fun s => if s.id = saleId then
            { sale with
              items := updateFirstItem r.productId r.batchId
                (fun it => { it with returnedQuantity := it.returnedQuantity + r.quantity })
                sale.items,
              returns := sale.returns ++
                [{ items := [(r.productId, r.batchId, r.quantity)],
                   refundAmount := refund }],
              returnTotal := sale.returnTotal + refund,
              finalTotal := sale.total - (sale.returnTotal + refund) }
            else s },
        summary := [{ productId := r.productId, batchId := r.batchId,
                      returnedQuantity := r.quantity, unitPrice := origIt.unitPrice,
                      discountPerUnit := origIt.discount / origIt.quantity,
                      effectiveUnitPrice := origIt.unitPrice - origIt.discount / origIt.quantity,
                      refundAmount := refund }],
        totalRefundAmount := refund,
        updatedSaleTotal := sale.total - (sale.returnTotal + refund) }) ∧
    ((returnProducts (runCreate dbC2 ownerUser reqC2 0) ownerUser 6 none
      [{ productId := 10, batchId := 22, quantity := 2 }] 0).toOption.map
        ReturnOutcome.totalRefundAmount) = some 24 ∧
    ((returnProducts (runCreate dbC2 ownerUser reqC2 0) ownerUser 6 none
      [{ productId := 10, batchId := 22, quantity := 2 }] 0).toOption.map
        (fun o => o.db.batches.map Batch.currentStock)) = some [0, 9] ∧
    ((returnProducts (runCreate dbC2 ownerUser reqC2 0) ownerUser 6 none
      [{ productId := 10, batchId := 22, quantity := 2 }] 0).toOption.map
        (fun o => o.db.sales.map fun s => s.items.map SaleItem.returnedQuantity)) =
      some [[0, 2]] ∧
    ((returnProducts (runCreate dbC2 ownerUser reqC2 0) ownerUser 6 none
      [{ productId := 10, batchId := 22, quantity := 2 }] 0).toOption.map
        (fun o => o.db.sales.map Sale.finalTotal)) = some [62] :=
  ⟨returnProducts_single_line_ok db user saleId now sale storeDoc origIt b prod r refund
    hq hsale hstore hauth hwin hfind hret0 hprev hbatch hprod hrefund,
   by with_unfolding_all decide, by with_unfolding_all decide,
   by with_unfolding_all decide, by with_unfolding_all decide⟩

/-- C8 witness: returning 2 of the 3 purchased units on the dbC10 snapshot
refunds 20, restores batch 21 from 2 to 4 and marks the item returned. -/
theorem c8_return_refund_and_restock_witness :
    returnProducts dbC10 ownerUser 6 none
      [{ productId := 10, batchId := 21, quantity := 2 }] 1 = .ok
      { db := { dbC10 with
          batches := updateBatchStock dbC10.batches 21 2,
          sales := dbC10.sales.map fun s => if s.id = 6 then
            { saleC10 with
              items := updateFirstItem 10 21
                (fun it => { it with returnedQuantity := it.returnedQuantity + 2 })
                saleC10.items,
              returns := saleC10.returns ++
                [{ items := [(10, 21, 2)], refundAmount := 20 }],
              returnTotal := saleC10.returnTotal + 20,
              finalTotal := saleC10.total - (saleC10.returnTotal + 20) }
            else s },
        summary := [{ productId := 10, batchId := 21, returnedQuantity := 2,
                      unitPrice := 10, discountPerUnit := 0 / 3,
                      effectiveUnitPrice := 10 - 0 / 3, refundAmount := 20 }],
        totalRefundAmount := 20,
        updatedSaleTotal := saleC10.total - (saleC10.returnTotal + 20) } :=
  (c8_return_refund_and_restock dbC10 ownerUser 6 1 saleC10 storeA
    { product := 10, batch := 21, quantity := 3, unitPrice := 10, subtotal := 30 }
    { batchB1 with currentStock := 2 } productP
    { productId := 10, batchId := 21, quantity := 2 } 20
    (by norm_num) (by with_unfolding_all decide) (by with_unfolding_all decide)
    (by with_unfolding_all decide) (by with_unfolding_all decide)
    (by with_unfolding_all decide) (by norm_num) (by norm_num)
    (by with_unfolding_all decide) (by with_unfolding_all decide) (by norm_num)).1

end FYP

namespace FYP

/-- C9: cancelSale succeeds only for the store owner or an administrator and
only within 7 days of the sale's creation; on success it adds every item's
full purchased quantity back onto that item's batch and deletes the Sale
record; past 7 days it fails with the window error and changes nothing.
Returns use a separate 30-day window: on day 10 the same sale can still be
returned while cancellation is already refused; cancelling on day 5
restores the batch from 3 to 5 and removes the sale. -/
theorem c9_cancel_window_and_restore (db : DB) (user : UserCtx) (saleId : Nat) (now : ℚ)
    (sale : Sale) (store : StoreDoc)
    (hsale : db.sales.find? (fun s => s.id == saleId) = some sale)
    (hstore : db.stores.find? (fun st => st.id == sale.store) = some store) :
    ((store.owner == user.id) = false → (user.role == "admin") = false →
      cancelSale db user saleId now = .error .notAuthorized) ∧
    (((store.owner == user.id) = true ∨ (user.role == "admin") = true) →
      7 < now - sale.createdAt →
      cancelSale db user saleId now = .error .windowExpired ∧
      runCancel db user saleId now = db) ∧
    (((store.owner == user.id) = true ∨ (user.role == "admin") = true) →
      ¬ 7 < now - sale.createdAt →
      cancelSale db user saleId now = .ok { db with
        batches := sale.items.foldl
          (fun bs it => updateBatchStock bs it.batch it.quantity) db.batches,
        sales := db.sales.filter (fun s => s.id != saleId) }) ∧
    cancelSale dbC9 ownerUser 6 10 = .error .windowExpired ∧
    (returnProducts dbC9 ownerUser 6 none
      [{ productId := 10, batchId := 21, quantity := 1 }] 10).isOk = true ∧
    (cancelSale dbC9 ownerUser 6 5).toOption.map
      (fun d => d.batches.map Batch.currentStock) = some [5] ∧
    (cancelSale dbC9 ownerUser 6 5).toOption.map
      (fun d => d.sales.map Sale.id) = some [] := by
  refine ⟨?_, ?_, ?_, by with_unfolding_all decide, by with_unfolding_all decide,
    by with_unfolding_all decide, by with_unfolding_all decide⟩
  · intro ho ha
    simp only [cancelSale, hsale, hstore, ho, ha, Bool.not_false, Bool.and_self,
      if_true, ite_true]
  · intro hor hwin
    have hcond : ((!(store.owner == user.id)) && !(user.role == "admin")) = false := by
      rcases hor with h | h <;> simp [h]
    have h1 : cancelSale db user saleId now = .error .windowExpired := by
      simp only [cancelSale, hsale, hstore, hcond, Bool.false_eq_true, if_false,
        ite_false, if_pos hwin]
    exact ⟨h1, by simp [runCancel, h1]⟩
  · intro hor hwin
    have hcond : ((!(store.owner == user.id)) && !(user.role == "admin")) = false := by
      rcases hor with h | h <;> simp [h]
    simp only [cancelSale, hsale, hstore, hcond, Bool.false_eq_true, if_false,
      ite_false, if_neg hwin]

/-- C9 witness: the theorem applied to the dbC9 snapshot — window failure at
day 10 and full restoration at day 5. -/
theorem c9_cancel_window_and_restore_witness :
    cancelSale dbC9 ownerUser 6 10 = .error .windowExpired ∧
    (cancelSale dbC9 ownerUser 6 5).toOption.map
      (fun d => d.batches.map Batch.currentStock) = some [5] :=
  ⟨(c9_cancel_window_and_restore dbC9 ownerUser 6 10 saleC9 storeA
      (by with_unfolding_all decide) (by with_unfolding_all decide)).2.2.2.1,
   (c9_cancel_window_and_restore dbC9 ownerUser 6 10 saleC9 storeA
      (by with_unfolding_all decide) (by with_unfolding_all decide)).2.2.2.2.2.1⟩

end FYP

namespace FYP

/-- C10: returnProducts validates a line quantity only as a positive number
— no integrality check, unlike createSale which rejects non-integer sale
quantities. For every positive non-integer q not exceeding the remaining
returnable quantity, createSale with quantity q fails with the
invalid-quantity error while returnProducts accepts it, adjusting batch
stock, returnedQuantity and the refund by the fractional amount. -/
theorem c10_fractional_return_quantity (q : ℚ) (hq : 0 < q) (hden : q.den ≠ 1) (hle : q ≤ 3) :
    createSale dbC10 ownerUser
      { items := [{ product := 10, quantity := q }], subtotal := 15, total := 15 } 0 =
      .err (.invalidQuantity 10) ∧
    returnProducts dbC10 ownerUser 6 none
      [{ productId := 10, batchId := 21, quantity := q }] 1 = .ok
      { db := { dbC10 with
          batches := updateBatchStock dbC10.batches 21 q,
          sales := dbC10.sales.map fun s => if s.id = 6 then
            { saleC10 with
              items := updateFirstItem 10 21
                (fun it => { it with returnedQuantity := it.returnedQuantity + q })
                saleC10.items,
              returns := saleC10.returns ++
                [{ items := [(10, 21, q)], refundAmount := 10 * q }],
              returnTotal := saleC10.returnTotal + 10 * q,
              finalTotal := saleC10.total - (saleC10.returnTotal + 10 * q) }
            else s },
        summary := [{ productId := 10, batchId := 21, returnedQuantity := q,
                      unitPrice := 10, discountPerUnit := 0 / 3,
                      effectiveUnitPrice := 10 - 0 / 3, refundAmount := 10 * q }],
        totalRefundAmount := 10 * q,
        updatedSaleTotal := saleC10.total - (saleC10.returnTotal + 10 * q) } := by
  constructor
  · have hcond : (q ≤ 0 ∨ q.den ≠ 1) := Or.inr hden
    have hsf : (if ownerUser.role = "owner" then
        dbC10.stores.find? (fun s => s.owner == ownerUser.id)
        else (({ items := [{ product := 10, quantity := q }], subtotal := 15,
                 total := 15 } : SaleReq)).store.bind fun sid =>
          dbC10.stores.find? (fun s => s.id == sid)) = some storeA := by
      rw [if_pos (show ownerUser.role = "owner" from rfl)]
      with_unfolding_all decide
    have hcust : resolveCustomer dbC10 storeA.id none = .ok (5, dbC10.customers, 7) := by
      with_unfolding_all decide
    have hpi : processItems dbC10.products storeA.id
        [{ product := 10, quantity := q }] dbC10.batches =
        .error (.invalidQuantity 10) := by
      rw [processItems, List.foldlM_cons]
      rw [show processItem dbC10.products storeA.id { batches := dbC10.batches }
          { product := 10, quantity := q } = .error (.invalidQuantity 10) from by
        simp only [processItem, if_pos hcond]]
      rw [except_error_bind]
    have hpay : ¬ (("cash" : String) = "") := by decide
    simp only [createSale, List.isEmpty_cons, Bool.false_eq_true, if_false,
      ite_false, hsf, hcust, hpi, hpay]
  · exact (returnProducts_single_line_ok dbC10 ownerUser 6 1 saleC10 storeA
      { product := 10, batch := 21, quantity := 3, unitPrice := 10, subtotal := 30 }
      { batchB1 with currentStock := 2 } productP
      { productId := 10, batchId := 21, quantity := q } (10 * q)
      hq (by with_unfolding_all decide) (by with_unfolding_all decide)
      (by with_unfolding_all decide) (by with_unfolding_all decide)
      (show saleC10.items.find? (fun it => it.product == 10 && it.batch == 21) =
        some { product := 10, batch := 21, quantity := 3, unitPrice := 10,
               subtotal := 30 } by with_unfolding_all decide)
      (by norm_num)
      (by show (0:ℚ) + q ≤ 3; linarith)
      (show dbC10.batches.find? (fun bb => bb.id == 21) =
        some { batchB1 with currentStock := 2 } by with_unfolding_all decide)
      (show dbC10.products.find? (fun pp => pp.id == 10) = some productP by
        with_unfolding_all decide)
      (by norm_num))

/-- C10 witness: q = 3/2 — rejected by createSale, accepted by
returnProducts with refund 15 = 10 × 1.5. -/
theorem c10_fractional_return_quantity_witness :
    (0:ℚ) < 3/2 ∧ ((3:ℚ)/2).den ≠ 1 ∧ (3:ℚ)/2 ≤ 3 ∧
    createSale dbC10 ownerUser
      { items := [{ product := 10, quantity := 3/2 }], subtotal := 15, total := 15 } 0 =
      .err (.invalidQuantity 10) ∧
    (returnProducts dbC10 ownerUser 6 none
      [{ productId := 10, batchId := 21, quantity := 3/2 }] 1).toOption.map
        ReturnOutcome.totalRefundAmount = some 15 :=
  ⟨by norm_num, by with_unfolding_all decide, by norm_num,
   (c10_fractional_return_quantity (3/2) (by norm_num) (by with_unfolding_all decide) (by norm_num)).1,
   by rw [(c10_fractional_return_quantity (3/2) (by norm_num) (by with_unfolding_all decide) (by norm_num)).2]; with_unfolding_all decide⟩

end FYP
